import Mathlib

/-!
Shallow embedding of the gesture tracker in `src/actions/pointer.ts` of the
`@beerush/composer` repository, together with proofs settling the frozen
claims about its specification.

Coordinates, deltas and thresholds are modelled as exact rationals (`ℚ`).
The only real-valued quantity is the Euclidean two-contact distance
(`Math.sqrt(x*x + y*y)` in the source), modelled as `Real.sqrt` of the
rational squared distance; the band test `distance > dragMin && distance <
dragMax` is carried out in exact rational arithmetic (`inDragBand`) and
proved equivalent to the real-number comparison (`inDragBand_iff`).
-/

namespace Composer

/-- PointerMode enum (`draw` / `drag`) from `pointer.ts`. -/
inductive PointerMode where
  | Draw
  | Drag
  deriving DecidableEq, Repr

/-- Shared value set of the `OriginX` / `OriginY` enums: both have the
values `start`, `center`, `end` (`OriginX.Left = start`, `OriginX.Center =
center`, `OriginX.Right = end`, and symmetrically for `OriginY`).
Because `end` is a Lean keyword, that constructor is named `end_`. -/
inductive Origin where
  | start
  | center
  | end_
  deriving DecidableEq, Repr

/-- Pointer type of a DOM PointerEvent (`mouse`, `touch`, `pen`). -/
inductive PointerType where
  | mouse
  | touch
  | pen
  deriving DecidableEq, Repr

/-- Mouse button codes from `src/utils/mouse.ts` (`enum Mouse`): Left = 0. -/
def Mouse.Left : Nat := 0

/-- Mouse button codes from `src/utils/mouse.ts` (`enum Mouse`): Middle = 1. -/
def Mouse.Middle : Nat := 1

/-- Mouse button codes from `src/utils/mouse.ts` (`enum Mouse`): Right = 2. -/
def Mouse.Right : Nat := 2

/-- The fields of a DOM `PointerEvent` that `pointer.ts` reads: identifier,
pointer type, button, primary flag, pressure, client coordinates, the
modifier keys read in `start`, and the event target (modelled as a numeric
element id). -/
structure PContact where
  pointerId : Nat
  pointerType : PointerType
  button : Nat
  isPrimary : Bool
  pressure : ℚ
  clientX : ℚ
  clientY : ℚ
  altKey : Bool
  shiftKey : Bool
  target : Nat

/-- Result of `relative.getBoundingClientRect()` as read in `move`. -/
structure Rect where
  left : ℚ
  top : ℚ
  width : ℚ
  height : ℚ

/-- Key names distinguished by the `keydown` / `keyup` handlers: the
handlers compare `e.key` against `Escape` and `e.code` against `Space`;
everything else is `other`. -/
inductive KeyName where
  | escape
  | space
  | other
  deriving DecidableEq, Repr

/-- The fields of a DOM `KeyboardEvent` that `pointer.ts` reads (`key` and
`code`). -/
structure KeyEvt where
  key : KeyName
  code : KeyName

/-- PointerChangeType enum from `pointer.ts`. -/
inductive PointerChangeType where
  | Up
  | Down
  | Move
  | Menu
  | DrawStart
  | DrawEnd
  | DragStart
  | DragEnd
  | Cancel
  deriving DecidableEq, Repr

/-- Snapshot carried by a dispatched `PointerChange` event (the `details`
object built in `dispatch`, plus the `target` added to `detail`). The
`scale` field declared in the TypeScript type is never set by `dispatch`
and is omitted. -/
structure PDetail where
  clientX : ℚ
  clientY : ℚ
  offsetX : ℚ
  offsetY : ℚ
  startX : ℚ
  startY : ℚ
  deltaX : ℚ
  deltaY : ℚ
  clientLeft : ℚ
  clientTop : ℚ
  clientWidth : ℚ
  clientHeight : ℚ
  originX : Origin
  originY : Origin
  isRatioLocked : Bool
  isMoving : Bool
  isDrawing : Bool
  isDragging : Bool
  mode : Option PointerMode
  target : Option Nat

/-- One dispatched event: its `PointerChangeType` and the snapshot delivered
identically to every subscriber and to the host element. -/
structure DEvent where
  type : PointerChangeType
  detail : PDetail

/-- Options type `PointerOptions` from `pointer.ts`; every field is
optional, defaults are applied on construction (`initState`). -/
structure PointerOptions where
  mode : Option PointerMode
  passive : Option Bool
  scaleDeltas : Option Bool
  scaleClients : Option Bool
  originX : Option Origin
  originY : Option Origin
  ratioLock : Option Bool
  deltaScale : Option ℚ
  deltaZoom : Option ℚ
  dragMin : Option ℚ
  dragMax : Option ℚ
  touchOnly : Option Bool
  mouseOnly : Option Bool

/-- Options object with no field set. -/
def PointerOptions.empty : PointerOptions :=
  { mode := none, passive := none, scaleDeltas := none, scaleClients := none,
    originX := none, originY := none, ratioLock := none, deltaScale := none,
    deltaZoom := none, dragMin := none, dragMax := none, touchOnly := none,
    mouseOnly := none }

/-- The mutable closure state of one `pointer(element, options)` instance:
the destructured option variables (including `touchOnly` / `mouseOnly`,
which are stored but never read by any handler) and the `let` variables
`startX .. tracking`, plus the `pointers` Map (insertion-ordered
association list, as a JS `Map`). `optOriginX` / `optOriginY` /
`optRatioLock` model `options.originX` / `options.originY` /
`options.ratioLock`, which lines 98-108 of the source guarantee are set;
`flush` restores the live values from them. -/
structure PState where
  optMode : Option PointerMode
  passive : Bool
  scaleDeltas : Bool
  scaleClients : Bool
  deltaScale : ℚ
  deltaZoom : ℚ
  dragMin : ℚ
  dragMax : ℚ
  touchOnly : Bool
  mouseOnly : Bool
  optOriginX : Origin
  optOriginY : Origin
  optRatioLock : Bool
  startX : ℚ
  startY : ℚ
  clientX : ℚ
  clientY : ℚ
  offsetX : ℚ
  offsetY : ℚ
  deltaX : ℚ
  deltaY : ℚ
  clientLeft : ℚ
  clientTop : ℚ
  clientWidth : ℚ
  clientHeight : ℚ
  spaceKey : Bool
  originX : Origin
  originY : Origin
  ratioLock : Bool
  activeMode : Option PointerMode
  activeTarget : Option Nat
  tracking : Bool
  pointers : List (Nat × PContact)

/-- Construction of the initial closure state from the options, applying
the destructuring defaults of the source (`deltaScale = 1`, `dragMin = 50`,
`dragMax = 125`, `originX/Y = start`, booleans `false`). -/
def initState (o : PointerOptions) : PState :=
  let originX := o.originX.getD Origin.start
  let originY := o.originY.getD Origin.start
  let ratioLock := o.ratioLock.getD false
  { optMode := o.mode
    passive := o.passive.getD false
    scaleDeltas := o.scaleDeltas.getD false
    scaleClients := o.scaleClients.getD false
    deltaScale := o.deltaScale.getD 1
    deltaZoom := o.deltaZoom.getD 1
    dragMin := o.dragMin.getD 50
    dragMax := o.dragMax.getD 125
    touchOnly := o.touchOnly.getD false
    mouseOnly := o.mouseOnly.getD false
    optOriginX := originX
    optOriginY := originY
    optRatioLock := ratioLock
    startX := 0, startY := 0, clientX := 0, clientY := 0
    offsetX := 0, offsetY := 0, deltaX := 0, deltaY := 0
    clientLeft := 0, clientTop := 0, clientWidth := 0, clientHeight := 0
    spaceKey := false
    originX := originX
    originY := originY
    ratioLock := ratioLock
    activeMode := none
    activeTarget := none
    tracking := false
    pointers := [] }

/-- JS map insertion (`Map.set`): overwrite in place when the key exists (keeping its
position), otherwise append (insertion order). -/
def mapSet (m : List (Nat × PContact)) (k : Nat) (v : PContact) :
    List (Nat × PContact) :=
  if m.any fun kv => kv.1 == k then
    m.map fun kv => if kv.1 == k then (k, v) else kv
  else m ++ [(k, v)]

/-- JS map removal (`Map.delete`): remove the entry with the given key. -/
def mapDelete (m : List (Nat × PContact)) (k : Nat) : List (Nat × PContact) :=
  m.filter fun kv => kv.1 != k

/-- JS value iteration (`Array.from(map.values())`): the values in insertion order. -/
def mapValues (m : List (Nat × PContact)) : List PContact :=
  m.map Prod.snd

/-- Executable form of `Math.abs` on `ℚ` (the lattice-based `|q|` does not
reduce in the kernel); `rabs_eq_abs` identifies it with `|q|`. -/
def rabs (q : ℚ) : ℚ :=
  if q < 0 then -q else q

/-- The executable absolute value agrees with `|q|`. -/
theorem rabs_eq_abs (q : ℚ) : rabs q = |q| := by
  unfold rabs
  split
  · rw [abs_of_neg (by assumption)]
  · rw [abs_of_nonneg (le_of_not_lt (by assumption))]

/-- Function `snapOrigin(start, delta, origin)` from `pointer.ts`: derives
the position and size of the Draw rectangle on one axis, with
`size = Math.abs(delta)`; for `center` the source executes `size *= 2`
before positioning. -/
def snapOrigin (start delta : ℚ) (origin : Origin) : ℚ × ℚ :=
  let size := rabs delta
  if origin = Origin.start then
    ((if delta < 0 then start - size else start), size)
  else if origin = Origin.center then
    let size := size * 2
    (start - size / 2, size)
  else
    ((if delta < 0 then start else start - size), size)

/-- Function `getEventType(mode, end)` from `pointer.ts`. -/
def getEventType (mode : Option PointerMode) (isEnd : Bool) : PointerChangeType :=
  match mode with
  | some PointerMode.Draw =>
    if isEnd then PointerChangeType.DrawEnd else PointerChangeType.DrawStart
  | some PointerMode.Drag =>
    if isEnd then PointerChangeType.DragEnd else PointerChangeType.DragStart
  | none =>
    if isEnd then PointerChangeType.Up else PointerChangeType.Down

/-- Squared Euclidean distance between the first two registered contacts:
the argument of `Math.sqrt` in `getPointerDistance`. For a registry of any
other size the source returns `0`, whose square is also `0`, so
`getPointerDistance` below is `Real.sqrt` of this in every case. -/
def getPointerDistanceSq (touches : List PContact) : ℚ :=
  match touches with
  | [t1, t2] =>
    let x := t1.clientX - t2.clientX
    let y := t1.clientY - t2.clientY
    x * x + y * y
  | _ => 0

/-- Function `getPointerDistance(touches)` from `pointer.ts`:
`Math.sqrt(x*x + y*y)` for exactly two contacts, `0` otherwise
(`Real.sqrt 0 = 0`). -/
noncomputable def getPointerDistance (touches : List PContact) : ℝ :=
  Real.sqrt (getPointerDistanceSq touches)

/-- Executable form of the comparison `distance > dragMin && distance <
dragMax` of `getPointerMode`, carried out on the squared distance in exact
rational arithmetic. `inDragBand_iff` proves it equivalent to the
real-number comparison against `getPointerDistance`. -/
def inDragBand (distSq dragMin dragMax : ℚ) : Bool :=
  (decide (dragMin < 0) || decide (dragMin * dragMin < distSq)) &&
  (decide (0 < dragMax) && decide (distSq < dragMax * dragMax))

/-- The squared distance is nonnegative. -/
theorem getPointerDistanceSq_nonneg (touches : List PContact) :
    0 ≤ getPointerDistanceSq touches := by
  unfold getPointerDistanceSq
  split
  · exact add_nonneg (mul_self_nonneg _) (mul_self_nonneg _)
  · exact le_refl 0

/-- The executable band test agrees with the real-number comparison
`dragMin < distance ∧ distance < dragMax` performed by the source on
`Math.sqrt` of the squared distance. -/
theorem inDragBand_iff (touches : List PContact) (dragMin dragMax : ℚ) :
    inDragBand (getPointerDistanceSq touches) dragMin dragMax = true ↔
      ((dragMin : ℝ) < getPointerDistance touches ∧
        getPointerDistance touches < (dragMax : ℝ)) := by
  have hs : (0 : ℝ) ≤ ((getPointerDistanceSq touches : ℚ) : ℝ) := by
    exact_mod_cast getPointerDistanceSq_nonneg touches
  unfold inDragBand getPointerDistance
  rw [Bool.and_eq_true, Bool.or_eq_true, Bool.and_eq_true]
  simp only [decide_eq_true_eq]
  constructor
  · rintro ⟨hlo, hM, hhi⟩
    refine ⟨?_, ?_⟩
    · rcases hlo with hneg | hlt
      · calc ((dragMin : ℚ) : ℝ) < 0 := by exact_mod_cast hneg
          _ ≤ Real.sqrt ((getPointerDistanceSq touches : ℚ) : ℝ) := Real.sqrt_nonneg _
      · by_cases h0 : (0 : ℚ) ≤ dragMin
        · rw [Real.lt_sqrt (by exact_mod_cast h0)]
          have : ((dragMin * dragMin : ℚ) : ℝ) < ((getPointerDistanceSq touches : ℚ) : ℝ) := by
            exact_mod_cast hlt
          calc ((dragMin : ℚ) : ℝ) ^ 2 = ((dragMin * dragMin : ℚ) : ℝ) := by push_cast; ring
            _ < _ := this
        · calc ((dragMin : ℚ) : ℝ) < 0 := by exact_mod_cast (lt_of_not_le h0)
            _ ≤ Real.sqrt _ := Real.sqrt_nonneg _
    · rw [Real.sqrt_lt' (by exact_mod_cast hM)]
      have : ((getPointerDistanceSq touches : ℚ) : ℝ) < ((dragMax * dragMax : ℚ) : ℝ) := by
        exact_mod_cast hhi
      calc ((getPointerDistanceSq touches : ℚ) : ℝ) < ((dragMax * dragMax : ℚ) : ℝ) := this
        _ = ((dragMax : ℚ) : ℝ) ^ 2 := by push_cast; ring
  · rintro ⟨hlo, hhi⟩
    have hM : (0 : ℚ) < dragMax := by
      by_contra hM0
      have : ((dragMax : ℚ) : ℝ) ≤ 0 := by exact_mod_cast le_of_not_lt hM0
      exact absurd (lt_of_le_of_lt (Real.sqrt_nonneg _) hhi) (not_lt.mpr this)
    refine ⟨?_, hM, ?_⟩
    · by_cases h0 : dragMin < 0
      · exact Or.inl h0
      · refine Or.inr ?_
        have h0' : (0 : ℝ) ≤ ((dragMin : ℚ) : ℝ) := by
          exact_mod_cast le_of_not_lt h0
        rw [Real.lt_sqrt h0'] at hlo
        have : ((dragMin : ℚ) : ℝ) * ((dragMin : ℚ) : ℝ) <
            ((getPointerDistanceSq touches : ℚ) : ℝ) := by
          calc ((dragMin : ℚ) : ℝ) * ((dragMin : ℚ) : ℝ)
              = ((dragMin : ℚ) : ℝ) ^ 2 := by ring
            _ < _ := hlo
        exact_mod_cast this
    · rw [Real.sqrt_lt' (by exact_mod_cast hM)] at hhi
      have : ((getPointerDistanceSq touches : ℚ) : ℝ) <
          ((dragMax : ℚ) : ℝ) * ((dragMax : ℚ) : ℝ) := by
        calc ((getPointerDistanceSq touches : ℚ) : ℝ) < ((dragMax : ℚ) : ℝ) ^ 2 := hhi
          _ = _ := by ring
      exact_mod_cast this

/-- Classifier `getPointerMode(pointers, dragMin, dragMax, space)` from
`pointer.ts`:
a single mouse contact is Drag when the button is the middle button or the
space key is held, otherwise Draw (any single contact is Drag under space,
Draw otherwise); with two or more contacts the mode is Drag exactly when
the distance test passes, and `undefined` (`none`) otherwise, including the
empty registry. -/
def getPointerMode (pointers : List PContact) (dragMin dragMax : ℚ)
    (space : Bool) : Option PointerMode :=
  match pointers with
  | [p] =>
    if p.pointerType = PointerType.mouse ∧ (p.button = Mouse.Middle ∨ space = true) then
      some PointerMode.Drag
    else if space then some PointerMode.Drag
    else some PointerMode.Draw
  | _ =>
    if 2 ≤ pointers.length then
      if inDragBand (getPointerDistanceSq pointers) dragMin dragMax then
        some PointerMode.Drag
      else none
    else none

/-- The `dispatch(type)` closure of `pointer.ts`: builds the snapshot from
the current closure state. The same snapshot object is delivered to every
subscriber and to the host element, so one `DEvent` represents the whole
dispatch. -/
def dispatch (type : PointerChangeType) (s : PState) : DEvent :=
  { type := type
    detail :=
      { clientX := s.clientX, clientY := s.clientY
        offsetX := s.offsetX, offsetY := s.offsetY
        startX := s.startX, startY := s.startY
        deltaX := s.deltaX, deltaY := s.deltaY
        clientLeft := s.clientLeft, clientTop := s.clientTop
        clientWidth := s.clientWidth, clientHeight := s.clientHeight
        originX := s.originX, originY := s.originY
        isRatioLocked := s.ratioLock
        isMoving := decide (type = PointerChangeType.Move)
        isDrawing := s.tracking && decide (s.activeMode = some PointerMode.Draw)
        isDragging := s.tracking && decide (s.activeMode = some PointerMode.Drag)
        mode := s.activeMode
        target := s.activeTarget } }

/-- The `flush()` closure: resets start geometry, deltas, rectangle fields,
restores the origin / ratio-lock settings from the options, clears the
tracking flag, the mode, the active target and the contact registry.
`clientX/clientY/offsetX/offsetY` are not touched by the source. -/
def flush (s : PState) : PState :=
  { s with
    startX := 0, startY := 0, deltaX := 0, deltaY := 0
    clientLeft := 0, clientTop := 0, clientWidth := 0, clientHeight := 0
    originX := s.optOriginX, originY := s.optOriginY, ratioLock := s.optRatioLock
    tracking := false, activeMode := none, activeTarget := none
    pointers := [] }

/-- The `isAcceptable(e)` closure: false when no mode is classified, false
when a mode filter is configured and differs from the classified mode while
the space key is not held; true otherwise. (The event argument is unused by
the source body as well.) -/
def isAcceptable (s : PState) : Bool :=
  match s.activeMode with
  | none => false
  | some am =>
    if s.spaceKey = false ∧ s.optMode.isSome ∧ s.optMode ≠ some am then false
    else true

/-- The `start(e)` handler (`pointerdown`): registers the contact,
reclassifies the mode, and, for a primary contact, applies the Alt
(center-origin) and Shift (ratio-lock) modifiers, records the target and
dispatches a Down event. -/
def start (s : PState) (e : PContact) : PState × List DEvent :=
  let s1 := { s with pointers := mapSet s.pointers e.pointerId e }
  let s2 := { s1 with
    activeMode := getPointerMode (mapValues s1.pointers) s1.dragMin s1.dragMax s1.spaceKey }
  if e.isPrimary then
    let s3 := if e.altKey then
        { s2 with originX := Origin.center, originY := Origin.center }
      else s2
    let s4 := if e.shiftKey then { s3 with ratioLock := true } else s3
    let s5 := { s4 with activeTarget := some e.target }
    (s5, [dispatch PointerChangeType.Down s5])
  else (s2, [])

/-- Lines 190-203 of `move`: when pressure is present, tracking has not
started and the classified mode is acceptable, set the tracking flag,
record the start geometry (element-relative for Draw, raw screen
coordinates for Drag) and dispatch the start event for the mode. -/
def moveBegin (s : PState) (e : PContact) : PState × List DEvent :=
  if e.pressure ≠ 0 ∧ s.tracking = false ∧ isAcceptable s = true then
    let s1 := { s with tracking := true }
    let s2 :=
      if s1.activeMode = some PointerMode.Draw then
        { s1 with startX := s1.clientX, startY := s1.clientY }
      else
        { s1 with startX := e.clientX, startY := e.clientY }
    (s2, [dispatch (getEventType s2.activeMode false) s2])
  else (s, [])

/-- Lines 205-220 of `move`: while tracking, derive the deltas; in Draw
mode apply the ratio lock to `deltaY` and synthesize the rectangle through
`snapOrigin`; in Drag mode compute raw screen deltas. -/
def moveDerive (s : PState) (e : PContact) : PState :=
  if s.tracking = true then
    if s.activeMode = some PointerMode.Draw then
      let deltaX := s.clientX - s.startX
      let deltaY0 := s.clientY - s.startY
      let deltaY :=
        if s.ratioLock then
          if deltaY0 < 0 then (if deltaX < 0 then deltaX else -deltaX)
          else (if deltaX < 0 then -deltaX else deltaX)
        else deltaY0
      let pl := snapOrigin s.startX deltaX s.originX
      let pt := snapOrigin s.startY deltaY s.originY
      { s with deltaX := deltaX, deltaY := deltaY
               clientLeft := pl.1, clientWidth := pl.2
               clientTop := pt.1, clientHeight := pt.2 }
    else if s.activeMode = some PointerMode.Drag then
      { s with deltaX := e.clientX - s.startX, deltaY := e.clientY - s.startY }
    else s
  else s

/-- The `move(e)` handler (`pointermove` on the document): early-out on a
passive tracker without pressure or a non-primary contact; compute the
element-relative client position, early-out when unchanged; update the
client position and percentage offsets, run the tracking-start block
(`moveBegin`) and the delta-derivation block (`moveDerive`), and finally
dispatch a Move event unconditionally. The rect argument models
`relative.getBoundingClientRect()`. -/
def move (s : PState) (e : PContact) (rect : Rect) : PState × List DEvent :=
  if (s.passive = true ∧ e.pressure = 0) ∨ e.isPrimary = false then (s, [])
  else
    let cx := (e.clientX - rect.left * (if s.scaleClients then s.deltaZoom else 1)) / s.deltaScale
    let cy := (e.clientY - rect.top * (if s.scaleClients then s.deltaZoom else 1)) / s.deltaScale
    if cx = s.clientX ∧ cy = s.clientY then (s, [])
    else
      let s1 := { s with clientX := cx, clientY := cy
                         offsetX := cx / rect.width * 100
                         offsetY := cy / rect.height * 100 }
      let p := moveBegin s1 e
      let s2 := moveDerive p.1 e
      (s2, p.2 ++ [dispatch PointerChangeType.Move s2])

/-- The `end(e)` handler (`pointerup` on the document): remove the contact;
if a mode was active and tracking, dispatch the end event for the mode and
flush; if the registry is then empty, dispatch Up and flush again. -/
def endPointer (s : PState) (e : PContact) : PState × List DEvent :=
  let s1 := { s with pointers := mapDelete s.pointers e.pointerId }
  let p :=
    if s1.activeMode.isSome ∧ s1.tracking = true then
      (flush s1, [dispatch (getEventType s1.activeMode true) s1])
    else (s1, [])
  if p.1.pointers.length = 0 then
    (flush p.1, p.2 ++ [dispatch PointerChangeType.Up p.1])
  else p

/-- The `leave(e)` handler (`pointerleave` on the element): when a mode is
active, the contact is primary and tracking is on, dispatch a Cancel event.
The source performs no reset here (no `flush()` call). -/
def leave (s : PState) (e : PContact) : PState × List DEvent :=
  if s.activeMode.isNone ∨ e.isPrimary = false ∨ s.tracking = false then (s, [])
  else (s, [dispatch PointerChangeType.Cancel s])

/-- The `keydown(e)` handler: Escape while a mode is active and tracking
dispatches Cancel and flushes; a Space keydown sets the sticky space flag. -/
def keydown (s : PState) (e : KeyEvt) : PState × List DEvent :=
  let p :=
    if e.key = KeyName.escape ∧ s.activeMode.isSome ∧ s.tracking = true then
      (flush s, [dispatch PointerChangeType.Cancel s])
    else (s, [])
  if e.code = KeyName.space then ({ p.1 with spaceKey := true }, p.2)
  else p

/-- The `keyup(e)` handler: a Space keyup clears the sticky space flag. -/
def keyup (s : PState) (e : KeyEvt) : PState × List DEvent :=
  if e.code = KeyName.space then ({ s with spaceKey := false }, [])
  else (s, [])

/-- One raw input event delivered to the native listeners of the tracker. A
`pmove` carries the bounding rect of the reference element at that moment
(the result of `relative.getBoundingClientRect()`). -/
inductive PEvent where
  | pdown (e : PContact)
  | pmove (e : PContact) (rect : Rect)
  | pup (e : PContact)
  | pleave (e : PContact)
  | keydown (e : KeyEvt)
  | keyup (e : KeyEvt)

/-- Whether the input event is a `pointerdown`. -/
def PEvent.isDown : PEvent → Bool
  | PEvent.pdown _ => true
  | _ => false

/-- One step of the tracker: route the input event to its handler, as the
listeners registered in `pointer()` do. -/
def step (s : PState) (e : PEvent) : PState × List DEvent :=
  match e with
  | PEvent.pdown c => start s c
  | PEvent.pmove c rect => move s c rect
  | PEvent.pup c => endPointer s c
  | PEvent.pleave c => leave s c
  | PEvent.keydown k => keydown s k
  | PEvent.keyup k => keyup s k

/-- Run the tracker over a sequence of input events, collecting every
dispatched event in order. Handlers run to completion one at a time, as in
the single-threaded browser event loop. -/
def run (s : PState) (evs : List PEvent) : PState × List DEvent :=
  match evs with
  | [] => (s, [])
  | e :: rest =>
    let p := step s e
    let q := run p.1 rest
    (q.1, p.2 ++ q.2)

/-- The subscriber registry: a JS `Set` of callbacks, modelled as a
duplicate-free insertion-ordered list of callback identities. `Set.add` is
a no-op when the callback is already present. -/
def subAdd (subs : List Nat) (cb : Nat) : List Nat :=
  if cb ∈ subs then subs else subs ++ [cb]

/-- Unsubscription primitive (`Set.delete`): removes the callback from the
registry. -/
def subDelete (subs : List Nat) (cb : Nat) : List Nat :=
  subs.filter fun c => c ≠ cb

/-- The `subscribe(callback)` method: adds the callback to the subscriber
set and returns an unsubscribe function that deletes that same callback
from whatever the subscriber set is at the time it is invoked. On a
dispatch, exactly the callbacks in the set are invoked (once each). -/
def subscribe (subs : List Nat) (cb : Nat) : List Nat × (List Nat → List Nat) :=
  (subAdd subs cb, fun current => subDelete current cb)

/-- A primary touch contact at the origin. -/
def touch00 : PContact :=
  { pointerId := 1, pointerType := PointerType.touch, button := 0, isPrimary := true,
    pressure := 1, clientX := 0, clientY := 0, altKey := false, shiftKey := false,
    target := 0 }

/-- A second, non-primary touch contact at (200, 0): 200px from `touch00`. -/
def touchFar : PContact :=
  { touch00 with pointerId := 2, isPrimary := false, clientX := 200 }

/-- The primary touch moved to (10, 0). -/
def touchMove10 : PContact :=
  { touch00 with clientX := 10 }

/-- A second touch at (30, 40): exactly 50px from `touch00`. -/
def touchAt3040 : PContact :=
  { touch00 with pointerId := 2, isPrimary := false, clientX := 30, clientY := 40 }

/-- A second touch at (35, 120): exactly 125px from `touch00`. -/
def touchAt35120 : PContact :=
  { touch00 with pointerId := 2, isPrimary := false, clientX := 35, clientY := 120 }

/-- A second touch at (51, 0): 51px from `touch00`, one unit inside the
default lower bound. -/
def touchAt510 : PContact :=
  { touch00 with pointerId := 2, isPrimary := false, clientX := 51 }

/-- A second touch at (124, 0): 124px from `touch00`, one unit inside the
default upper bound. -/
def touchAt1240 : PContact :=
  { touch00 with pointerId := 2, isPrimary := false, clientX := 124 }

/-- A primary left-button mouse pointer-down at the origin (no pressure on
the down event itself). -/
def mouseDown00 : PContact :=
  { pointerId := 1, pointerType := PointerType.mouse, button := 0, isPrimary := true,
    pressure := 0, clientX := 0, clientY := 0, altKey := false, shiftKey := false,
    target := 5 }

/-- The same mouse pressed with Shift held (the ratio-lock modifier). -/
def mouseShiftDown00 : PContact :=
  { mouseDown00 with shiftKey := true }

/-- The pressed mouse moved to (5, 0). -/
def mouseMoveA : PContact :=
  { mouseDown00 with pressure := 1, clientX := 5, clientY := 0 }

/-- The pressed mouse moved to (-35, 10): relative to the start point
(5, 0) this gives deltaX = -40 and an unlocked deltaY = 10. -/
def mouseMoveB : PContact :=
  { mouseDown00 with pressure := 1, clientX := -35, clientY := 10 }

/-- Reference-element rect with origin (0, 0) and size 100 x 100. -/
def rect0 : Rect := { left := 0, top := 0, width := 100, height := 100 }

/-- An Escape keydown event. -/
def keyEscape : KeyEvt := { key := KeyName.escape, code := KeyName.escape }

/-- A Space key event. -/
def keySpace : KeyEvt := { key := KeyName.other, code := KeyName.space }

/-- Evaluation of `Real.sqrt` at the cast of a rational perfect square. -/
theorem sqrt_ratCast_eval (q r : ℚ) (hr : 0 ≤ r) (h : r * r = q) :
    Real.sqrt ((q : ℚ) : ℝ) = ((r : ℚ) : ℝ) := by
  have hq : ((q : ℚ) : ℝ) = ((r : ℚ) : ℝ) * ((r : ℚ) : ℝ) := by exact_mod_cast h.symm
  rw [hq, Real.sqrt_mul_self (by exact_mod_cast hr)]

/-- C4 counterexample: at start 0, delta 1, the `center` anchor returns
size 2, not `|1| = 1`, refuting the claim that the size equals `|D|` for
every anchor mode. -/
theorem c4_counterexample :
    (snapOrigin 0 1 Origin.center).2 = 2 ∧ ¬(snapOrigin 0 1 Origin.center).2 = |(1 : ℚ)| := by
  have h : snapOrigin 0 1 Origin.center = (-1, 2) := by
    norm_num [snapOrigin, rabs]
    decide
  rw [h]
  norm_num

/-- C4 (amended): for every start coordinate S, signed delta D and anchor
mode, `snapOrigin` returns size `|D|` for the `start` and `end` anchors but
`2 * |D|` for the `center` anchor, and at `D = 0` the returned position
equals `S` for every anchor mode. -/
theorem c4_snap_origin_amended (S D : ℚ) (o : Origin) :
    (snapOrigin S D o).2 = (if o = Origin.center then 2 * |D| else |D|) ∧
    (snapOrigin S 0 o).1 = S := by
  constructor
  · cases o <;> simp [snapOrigin, rabs_eq_abs] <;> ring
  · cases o <;> simp [snapOrigin, rabs]

/-- Euclidean distance of a concrete two-contact registry, evaluated from a
rational square root witness. -/
theorem gpd_eval (t1 t2 : PContact) (r : ℚ) (hr : 0 ≤ r)
    (h : r * r = getPointerDistanceSq [t1, t2]) :
    getPointerDistance [t1, t2] = ((r : ℚ) : ℝ) := by
  rw [getPointerDistance]
  exact sqrt_ratCast_eval _ r hr h

/-- C7: for a registry of exactly two contacts, classification yields Drag
exactly when the Euclidean distance lies strictly between `dragMin` and
`dragMax`; at the default 50-125 band, a pair at distance exactly 50 or
exactly 125 is not Drag, while a pair at distance 51 or 124 is. -/
theorem c7_drag_band_strict :
    (∀ (t1 t2 : PContact) (dragMin dragMax : ℚ) (space : Bool),
      (getPointerMode [t1, t2] dragMin dragMax space = some PointerMode.Drag ↔
        ((dragMin : ℝ) < getPointerDistance [t1, t2] ∧
          getPointerDistance [t1, t2] < (dragMax : ℝ)))) ∧
    getPointerDistance [touch00, touchAt3040] = ((50 : ℚ) : ℝ) ∧
    getPointerMode [touch00, touchAt3040] 50 125 false = none ∧
    getPointerDistance [touch00, touchAt35120] = ((125 : ℚ) : ℝ) ∧
    getPointerMode [touch00, touchAt35120] 50 125 false = none ∧
    getPointerDistance [touch00, touchAt510] = ((51 : ℚ) : ℝ) ∧
    getPointerMode [touch00, touchAt510] 50 125 false = some PointerMode.Drag ∧
    getPointerDistance [touch00, touchAt1240] = ((124 : ℚ) : ℝ) ∧
    getPointerMode [touch00, touchAt1240] 50 125 false = some PointerMode.Drag := by
  refine ⟨?_, ?_, ?_, ?_, ?_, ?_, ?_, ?_, ?_⟩
  · intro t1 t2 dragMin dragMax space
    have hmode : getPointerMode [t1, t2] dragMin dragMax space =
        (if 2 ≤ ([t1, t2] : List PContact).length then
          (if inDragBand (getPointerDistanceSq [t1, t2]) dragMin dragMax then
            some PointerMode.Drag else none)
          else none) := rfl
    rw [hmode, if_pos (by norm_num)]
    rw [← inDragBand_iff [t1, t2] dragMin dragMax]
    cases hb : inDragBand (getPointerDistanceSq [t1, t2]) dragMin dragMax
    · simp [hb]
    · simp [hb]
  · exact gpd_eval touch00 touchAt3040 50 (by norm_num)
      (by norm_num [getPointerDistanceSq, touch00, touchAt3040])
  · norm_num [getPointerMode, inDragBand, getPointerDistanceSq, touch00, touchAt3040]
  · exact gpd_eval touch00 touchAt35120 125 (by norm_num)
      (by norm_num [getPointerDistanceSq, touch00, touchAt35120])
  · norm_num [getPointerMode, inDragBand, getPointerDistanceSq, touch00, touchAt35120]
  · exact gpd_eval touch00 touchAt510 51 (by norm_num)
      (by norm_num [getPointerDistanceSq, touch00, touchAt510])
  · norm_num [getPointerMode, inDragBand, getPointerDistanceSq, touch00, touchAt510]
  · exact gpd_eval touch00 touchAt1240 124 (by norm_num)
      (by norm_num [getPointerDistanceSq, touch00, touchAt1240])
  · norm_num [getPointerMode, inDragBand, getPointerDistanceSq, touch00, touchAt1240]

/-- C9: with three or more contacts in the registry and a nonnegative
`dragMin`, the computed distance is 0 and classification always yields
`undefined`: interactions with 3 or more contacts are never classified as
Draw or Drag. -/
theorem c9_three_plus_contacts (ps : List PContact) (dragMin dragMax : ℚ)
    (space : Bool) (h3 : 3 ≤ ps.length) (hmin : 0 ≤ dragMin) :
    getPointerDistance ps = 0 ∧ getPointerMode ps dragMin dragMax space = none := by
  match ps, h3 with
  | a :: b :: c :: rest, _ =>
    have hsq : getPointerDistanceSq (a :: b :: c :: rest) = 0 := rfl
    have hband : inDragBand (getPointerDistanceSq (a :: b :: c :: rest)) dragMin dragMax
        = false := by
      rw [hsq]
      have h1 : ¬(dragMin < 0) := not_lt.mpr hmin
      have h2 : ¬(dragMin * dragMin < 0) := not_lt.mpr (mul_self_nonneg dragMin)
      simp [inDragBand, h1, h2]
    refine ⟨?_, ?_⟩
    · rw [getPointerDistance, hsq]
      simpa using Real.sqrt_zero
    · have hmode : getPointerMode (a :: b :: c :: rest) dragMin dragMax space =
          (if 2 ≤ (a :: b :: c :: rest).length then
            (if inDragBand (getPointerDistanceSq (a :: b :: c :: rest)) dragMin dragMax then
              some PointerMode.Drag else none)
          else none) := rfl
      rw [hmode, hband]
      simp

/-- C9 witness: a concrete three-contact registry under the default band is
classified as no mode, with distance 0. -/
theorem c9_three_plus_contacts_witness :
    getPointerDistance [touch00, touchAt3040, touchFar] = 0 ∧
    getPointerMode [touch00, touchAt3040, touchFar] 50 125 false = none :=
  c9_three_plus_contacts [touch00, touchAt3040, touchFar] 50 125 false
    (by decide) (by decide)

/-- While tracking is already on, the tracking-start block of `move` is a
no-op. -/
theorem moveBegin_tracking (s : PState) (e : PContact) (h : s.tracking = true) :
    moveBegin s e = (s, []) := by
  unfold moveBegin
  rw [if_neg]
  simp [h]

/-- While tracking in Draw mode with the ratio lock on, the delta-derivation
block of `move` computes `deltaX` as the element-relative offset from the
start point, and forces `deltaY` to magnitude `|deltaX|` with the sign of
the unlocked `deltaY` (current Y minus start Y). -/
theorem moveDerive_draw_locked (s : PState) (e : PContact) (htr : s.tracking = true)
    (hmode : s.activeMode = some PointerMode.Draw) (hlock : s.ratioLock = true) :
    (moveDerive s e).deltaX = s.clientX - s.startX ∧
    (moveDerive s e).deltaY = (if s.clientY - s.startY < 0
      then -|s.clientX - s.startX| else |s.clientX - s.startX|) := by
  unfold moveDerive
  rw [if_pos htr, if_pos hmode, hlock]
  constructor
  · simp
  · by_cases hdx : s.clientX - s.startX < 0
    · rw [abs_of_neg hdx]
      by_cases hdy : s.clientY - s.startY < 0 <;> simp [hdx, hdy]
    · rw [abs_of_nonneg (le_of_not_lt hdx)]
      by_cases hdy : s.clientY - s.startY < 0 <;> simp [hdx, hdy]

/-- C1 counterexample: in the shift-locked Draw gesture started at (0, 0),
moved to (5, 0) (start point) and then to (-35, 10), the derived deltas are
deltaX = -40 and unlocked deltaY = 10, and the dispatched Move event
carries deltaY = 40 (the magnitude of deltaX with the sign of the unlocked
deltaY), not -40 as the claim states. -/
theorem c1_counterexample :
    ((run (initState PointerOptions.empty)
        [PEvent.pdown mouseShiftDown00, PEvent.pmove mouseMoveA rect0,
          PEvent.pmove mouseMoveB rect0]).2.map
      fun ev => (ev.type, ev.detail.deltaX, ev.detail.deltaY)) =
      [(PointerChangeType.Down, 0, 0), (PointerChangeType.DrawStart, 0, 0),
        (PointerChangeType.Move, 0, 0), (PointerChangeType.Move, -40, 40)] ∧
    (40 : ℚ) ≠ -40 := by
  constructor
  · norm_num [run, step, start, move, moveBegin, moveDerive, isAcceptable, initState,
      PointerOptions.empty, mouseShiftDown00, mouseDown00, mouseMoveA, mouseMoveB, rect0,
      mapSet, mapValues, getPointerMode, getPointerDistanceSq, inDragBand, dispatch,
      getEventType, snapOrigin, rabs, Mouse.Middle, Mouse.Left]
  · norm_num

/-- C1 (amended): in Draw mode with ratio-lock active, for a move that
passes the guards, the dispatched Move event carries
`deltaX = cx - startX` and a `deltaY` of magnitude `|deltaX|` whose sign
follows the sign of the unlocked `deltaY` (`cy - startY`), not the sign of
`deltaX`; in particular `|deltaY| = |deltaX|` always holds. -/
theorem c1_ratio_lock_amended (s : PState) (e : PContact) (rect : Rect)
    (cx cy : ℚ)
    (hguard : ¬((s.passive = true ∧ e.pressure = 0) ∨ e.isPrimary = false))
    (htr : s.tracking = true)
    (hmode : s.activeMode = some PointerMode.Draw)
    (hlock : s.ratioLock = true)
    (hcx : (e.clientX - rect.left * (if s.scaleClients then s.deltaZoom else 1)) / s.deltaScale
      = cx)
    (hcy : (e.clientY - rect.top * (if s.scaleClients then s.deltaZoom else 1)) / s.deltaScale
      = cy)
    (hchanged : ¬(cx = s.clientX ∧ cy = s.clientY)) :
    (move s e rect).1.deltaX = cx - s.startX ∧
    (move s e rect).1.deltaY =
      (if cy - s.startY < 0 then -|cx - s.startX| else |cx - s.startX|) ∧
    |(move s e rect).1.deltaY| = |(move s e rect).1.deltaX| ∧
    (move s e rect).2 = [dispatch PointerChangeType.Move (move s e rect).1] := by
  have htr1 : ({ s with clientX := cx, clientY := cy, offsetX := cx / rect.width * 100, offsetY := cy / rect.height * 100 } : PState).tracking = true := htr
  have hmode1 : ({ s with clientX := cx, clientY := cy, offsetX := cx / rect.width * 100, offsetY := cy / rect.height * 100 } : PState).activeMode = some PointerMode.Draw := hmode
  have hlock1 : ({ s with clientX := cx, clientY := cy, offsetX := cx / rect.width * 100, offsetY := cy / rect.height * 100 } : PState).ratioLock = true := hlock
  have hmove : move s e rect = (moveDerive { s with clientX := cx, clientY := cy, offsetX := cx / rect.width * 100, offsetY := cy / rect.height * 100 } e, [dispatch PointerChangeType.Move (moveDerive { s with clientX := cx, clientY := cy, offsetX := cx / rect.width * 100, offsetY := cy / rect.height * 100 } e)]) := by
    simp only [move]
    rw [hcx, hcy, if_neg hguard, if_neg hchanged, moveBegin_tracking _ e htr1]
    simp
  have hD := moveDerive_draw_locked { s with clientX := cx, clientY := cy, offsetX := cx / rect.width * 100, offsetY := cy / rect.height * 100 } e htr1 hmode1 hlock1
  rw [hmove]
  refine ⟨hD.1, hD.2, ?_, rfl⟩
  rw [hD.1, hD.2]
  by_cases hdy : cy - s.startY < 0 <;> simp [hdy, abs_neg, abs_abs]

/-- A Draw-tracking state with the ratio lock on: start point (5, 0),
current client position (5, 0); this is the state reached by
`pdown mouseShiftDown00` followed by a first qualifying move to (5, 0). -/
def sDrawLock : PState :=
  { initState PointerOptions.empty with
    clientX := 5, clientY := 0, offsetX := 5, offsetY := 0,
    startX := 5, startY := 0, ratioLock := true,
    activeMode := some PointerMode.Draw, activeTarget := some 5,
    tracking := true, pointers := [(1, mouseShiftDown00)] }

/-- C1 witness: the amended theorem applied at the concrete state and move
of the counterexample scenario (cx = -35, cy = 10, start (5, 0)). -/
theorem c1_ratio_lock_amended_witness :
    (move sDrawLock mouseMoveB rect0).1.deltaX = -35 - sDrawLock.startX ∧
    (move sDrawLock mouseMoveB rect0).1.deltaY =
      (if (10 : ℚ) - sDrawLock.startY < 0 then -|(-35 : ℚ) - sDrawLock.startX|
        else |(-35 : ℚ) - sDrawLock.startX|) ∧
    |(move sDrawLock mouseMoveB rect0).1.deltaY| =
      |(move sDrawLock mouseMoveB rect0).1.deltaX| ∧
    (move sDrawLock mouseMoveB rect0).2 =
      [dispatch PointerChangeType.Move (move sDrawLock mouseMoveB rect0).1] :=
  c1_ratio_lock_amended sDrawLock mouseMoveB rect0 (-35) 10
    (by decide)
    (by decide)
    (by decide)
    (by decide)
    (by simp [sDrawLock, initState, PointerOptions.empty, mouseMoveB, mouseDown00, rect0])
    (by simp [sDrawLock, initState, PointerOptions.empty, mouseMoveB, mouseDown00, rect0])
    (by decide)

/-- With no classified mode, `isAcceptable` is false. -/
theorem isAcceptable_none (s : PState) (h : s.activeMode = none) :
    isAcceptable s = false := by
  unfold isAcceptable
  rw [h]

/-- With an acceptable classification, the mode is defined. -/
theorem isAcceptable_mode (s : PState) (h : isAcceptable s = true) :
    s.activeMode ≠ none := by
  intro hn
  rw [isAcceptable_none s hn] at h
  cases h

/-- When the classification is not acceptable, the tracking-start block of
`move` is a no-op. -/
theorem moveBegin_not_acceptable (s : PState) (e : PContact)
    (h : isAcceptable s = false) : moveBegin s e = (s, []) := by
  unfold moveBegin
  rw [if_neg]
  simp [h]

/-- With no classified mode, the delta-derivation block of `move` is the
identity. -/
theorem moveDerive_no_mode (s : PState) (e : PContact) (h : s.activeMode = none) :
    moveDerive s e = s := by
  unfold moveDerive
  rw [h]
  simp

/-- C3 counterexample: after two touch contacts 200px apart under the
default 50-125 band, Mode is undefined, yet the handler for the subsequent
primary-contact movement dispatches a Move event (so the claim that no
event at all is dispatched is false). -/
theorem c3_counterexample :
    (run (initState PointerOptions.empty)
      [PEvent.pdown touch00, PEvent.pdown touchFar]).1.activeMode = none ∧
    ((step (run (initState PointerOptions.empty)
        [PEvent.pdown touch00, PEvent.pdown touchFar]).1
      (PEvent.pmove touchMove10 rect0)).2.map DEvent.type) = [PointerChangeType.Move] := by
  norm_num [run, step, start, move, moveBegin, moveDerive, isAcceptable, initState,
    PointerOptions.empty, touch00, touchFar, touchMove10, rect0, mapSet, mapValues,
    getPointerMode, getPointerDistanceSq, inDragBand, dispatch, getEventType,
    snapOrigin, rabs, Mouse.Middle]

/-- C3 (amended): while the classified Mode is undefined, the move handler
leaves the mode, the tracking flag, the deltas and the start geometry
untouched and dispatches no gesture event — but it does dispatch plain Move
events (with mode `none`) for the movement. -/
theorem c3_no_mode_amended (s : PState) (e : PContact) (rect : Rect)
    (hmode : s.activeMode = none) :
    (move s e rect).1.activeMode = none ∧
    (move s e rect).1.tracking = s.tracking ∧
    (move s e rect).1.deltaX = s.deltaX ∧
    (move s e rect).1.deltaY = s.deltaY ∧
    (move s e rect).1.startX = s.startX ∧
    (move s e rect).1.startY = s.startY ∧
    ∀ ev ∈ (move s e rect).2,
      ev.type = PointerChangeType.Move ∧ ev.detail.mode = none := by
  simp only [move]
  split_ifs <;> simp [moveBegin, moveDerive, isAcceptable, dispatch, hmode]

/-- C3 witness: the amended theorem applied at the freshly initialized
tracker (whose Mode is undefined) and a concrete primary move. -/
theorem c3_no_mode_amended_witness :
    (move (initState PointerOptions.empty) touchMove10 rect0).1.activeMode = none ∧
    (move (initState PointerOptions.empty) touchMove10 rect0).1.tracking =
      (initState PointerOptions.empty).tracking ∧
    (move (initState PointerOptions.empty) touchMove10 rect0).1.deltaX =
      (initState PointerOptions.empty).deltaX ∧
    (move (initState PointerOptions.empty) touchMove10 rect0).1.deltaY =
      (initState PointerOptions.empty).deltaY ∧
    (move (initState PointerOptions.empty) touchMove10 rect0).1.startX =
      (initState PointerOptions.empty).startX ∧
    (move (initState PointerOptions.empty) touchMove10 rect0).1.startY =
      (initState PointerOptions.empty).startY ∧
    ∀ ev ∈ (move (initState PointerOptions.empty) touchMove10 rect0).2,
      ev.type = PointerChangeType.Move ∧ ev.detail.mode = none :=
  c3_no_mode_amended (initState PointerOptions.empty) touchMove10 rect0 (by decide)

/-- Insertion (`Map.set`) never leaves the registry empty. -/
theorem mapSet_ne_nil (m : List (Nat × PContact)) (k : Nat) (v : PContact) :
    mapSet m k v ≠ [] := by
  unfold mapSet
  split
  · next h =>
    intro hnil
    rcases m with _ | ⟨a, m⟩
    · simp at h
    · simp at hnil
  · intro hnil
    simp at hnil

/-- After the `start` handler the registry is never empty. -/
theorem start_pointers_ne_nil (s : PState) (e : PContact) :
    (start s e).1.pointers ≠ [] := by
  unfold start
  split_ifs <;> exact mapSet_ne_nil s.pointers e.pointerId e

/-- The delta-derivation block touches neither the tracking flag, nor the
mode, nor the registry. -/
theorem moveDerive_fields (s : PState) (e : PContact) :
    (moveDerive s e).tracking = s.tracking ∧
    (moveDerive s e).activeMode = s.activeMode ∧
    (moveDerive s e).pointers = s.pointers := by
  unfold moveDerive
  split_ifs <;> simp

/-- The tracking-start block touches neither the registry nor the mode. -/
theorem moveBegin_fields (s : PState) (e : PContact) :
    (moveBegin s e).1.pointers = s.pointers ∧
    (moveBegin s e).1.activeMode = s.activeMode := by
  unfold moveBegin
  dsimp only
  split_ifs <;> simp

/-- The move handler touches neither the registry nor the mode. -/
theorem move_registry_mode (s : PState) (e : PContact) (rect : Rect) :
    (move s e rect).1.pointers = s.pointers ∧
    (move s e rect).1.activeMode = s.activeMode := by
  simp only [move]
  split_ifs <;> simp [moveBegin_fields, moveDerive_fields]

/-- The leave handler does not change the state. -/
theorem leave_state (s : PState) (e : PContact) : (leave s e).1 = s := by
  unfold leave
  split_ifs <;> rfl

/-- The tracking-start block turns the tracking flag on only when the
classification is acceptable, hence only when a mode is defined; otherwise
it preserves the invariant that tracking implies a defined mode. -/
theorem moveBegin_tracking_mode (s : PState) (e : PContact)
    (hinv : s.tracking = true → s.activeMode ≠ none) :
    (moveBegin s e).1.tracking = true → (moveBegin s e).1.activeMode ≠ none := by
  unfold moveBegin
  dsimp only
  split_ifs with h1 h2 <;> intro htr
  · exact isAcceptable_mode s h1.2.2
  · exact isAcceptable_mode s h1.2.2
  · exact hinv htr

/-- The move handler preserves the invariant that tracking implies a
defined mode. -/
theorem move_tracking_mode (s : PState) (e : PContact) (rect : Rect)
    (hinv : s.tracking = true → s.activeMode ≠ none) :
    (move s e rect).1.tracking = true → (move s e rect).1.activeMode ≠ none := by
  simp only [move]
  split_ifs <;>
    first
      | exact hinv
      | (dsimp only
         rw [(moveDerive_fields _ e).1, (moveDerive_fields _ e).2.1]
         exact moveBegin_tracking_mode _ e hinv)

/-- The end handler preserves the invariant that tracking implies a defined
mode (any branch that keeps tracking on leaves mode untouched; every flush
clears tracking). -/
theorem endPointer_tracking_mode (s : PState) (e : PContact)
    (hinv : s.tracking = true → s.activeMode ≠ none) :
    (endPointer s e).1.tracking = true → (endPointer s e).1.activeMode ≠ none := by
  unfold endPointer
  dsimp only
  split_ifs <;> intro htr <;>
    first
      | exact hinv htr
      | simp [flush] at htr

/-- The end handler preserves the invariant that an empty registry implies
an undefined mode: every branch that can leave the registry empty flushes,
and flushing clears the mode. -/
theorem endPointer_empty_mode (s : PState) (e : PContact)
    (hinv : s.pointers = [] → s.activeMode = none) :
    (endPointer s e).1.pointers = [] → (endPointer s e).1.activeMode = none := by
  unfold endPointer
  dsimp only
  split_ifs <;> intro hp <;> first | rfl | simp_all

/-- The keydown handler preserves the invariant that tracking implies a
defined mode. -/
theorem keydown_tracking_mode (s : PState) (e : KeyEvt)
    (hinv : s.tracking = true → s.activeMode ≠ none) :
    (keydown s e).1.tracking = true → (keydown s e).1.activeMode ≠ none := by
  unfold keydown
  dsimp only
  split_ifs <;> intro htr <;>
    first
      | exact hinv htr
      | simp [flush] at htr

/-- The keydown handler preserves the invariant that an empty registry
implies an undefined mode. -/
theorem keydown_empty_mode (s : PState) (e : KeyEvt)
    (hinv : s.pointers = [] → s.activeMode = none) :
    (keydown s e).1.pointers = [] → (keydown s e).1.activeMode = none := by
  unfold keydown
  dsimp only
  split_ifs <;> intro hp <;> first | rfl | exact hinv hp

/-- The keyup handler only touches the space flag. -/
theorem keyup_state (s : PState) (e : KeyEvt) :
    (keyup s e).1.tracking = s.tracking ∧ (keyup s e).1.activeMode = s.activeMode ∧
    (keyup s e).1.pointers = s.pointers := by
  unfold keyup
  split_ifs <;> simp

/-- Every handler other than pointer-down preserves the invariant that
tracking implies a defined mode. -/
theorem step_tracking_mode (s : PState) (e : PEvent)
    (hinv : s.tracking = true → s.activeMode ≠ none) (hnd : e.isDown = false) :
    (step s e).1.tracking = true → (step s e).1.activeMode ≠ none := by
  cases e with
  | pdown c => simp [PEvent.isDown] at hnd
  | pmove c rect => exact move_tracking_mode s c rect hinv
  | pup c => exact endPointer_tracking_mode s c hinv
  | pleave c =>
    intro htr
    simp only [step] at htr ⊢
    rw [leave_state s c] at htr ⊢
    exact hinv htr
  | keydown k => exact keydown_tracking_mode s k hinv
  | keyup k =>
    intro htr
    simp only [step] at htr ⊢
    rw [(keyup_state s k).1] at htr
    rw [(keyup_state s k).2.1]
    exact hinv htr

/-- Every handler preserves the invariant that an empty registry implies an
undefined mode. -/
theorem step_empty_mode (s : PState) (e : PEvent)
    (hinv : s.pointers = [] → s.activeMode = none) :
    (step s e).1.pointers = [] → (step s e).1.activeMode = none := by
  cases e with
  | pdown c => exact fun hp => absurd hp (start_pointers_ne_nil s c)
  | pmove c rect =>
    intro hp
    simp only [step] at hp ⊢
    rw [(move_registry_mode s c rect).2]
    exact hinv (by rw [← (move_registry_mode s c rect).1]; exact hp)
  | pup c => exact endPointer_empty_mode s c hinv
  | pleave c =>
    intro hp
    simp only [step] at hp ⊢
    rw [leave_state s c] at hp ⊢
    exact hinv hp
  | keydown k => exact keydown_empty_mode s k hinv
  | keyup k =>
    intro hp
    simp only [step] at hp ⊢
    rw [(keyup_state s k).2.2] at hp
    rw [(keyup_state s k).2.1]
    exact hinv hp

/-- Runs preserve the invariant that an empty registry implies an undefined
mode. -/
theorem run_empty_mode (s : PState) (evs : List PEvent)
    (hinv : s.pointers = [] → s.activeMode = none) :
    (run s evs).1.pointers = [] → (run s evs).1.activeMode = none := by
  induction evs generalizing s with
  | nil => exact hinv
  | cons e rest ih =>
    simp only [run]
    exact ih (step s e).1 (step_empty_mode s e hinv)

/-- C5 counterexample: after the two pointer-down handlers for touch
contacts at distance 200px (outside the default 50-125 band), the mode is
undefined while the registry holds two contacts — refuting the claim that
Mode is undefined if AND ONLY IF the registry is empty. -/
theorem c5_counterexample :
    (run (initState PointerOptions.empty)
      [PEvent.pdown touch00, PEvent.pdown touchFar]).1.activeMode = none ∧
    (run (initState PointerOptions.empty)
      [PEvent.pdown touch00, PEvent.pdown touchFar]).1.pointers.length = 2 := by
  norm_num [run, step, start, initState, PointerOptions.empty, touch00, touchFar,
    mapSet, mapValues, getPointerMode, getPointerDistanceSq, inDragBand, dispatch]

/-- C5 (amended): one direction of the claimed equivalence holds as an
invariant of every run: whenever the contact registry is empty after a
sequence of handler invocations, the classified Mode is undefined. (The
converse fails: an out-of-band two-contact registry has undefined Mode.) -/
theorem c5_empty_registry_amended (o : PointerOptions) (evs : List PEvent)
    (h : (run (initState o) evs).1.pointers = []) :
    (run (initState o) evs).1.activeMode = none :=
  run_empty_mode (initState o) evs (fun _ => rfl) h

/-- C5 witness: after a pointer-down followed by the matching pointer-up the
registry is empty, and the amended theorem yields an undefined Mode. -/
theorem c5_empty_registry_amended_witness :
    (run (initState PointerOptions.empty)
      [PEvent.pdown touch00, PEvent.pup touch00]).1.activeMode = none :=
  c5_empty_registry_amended PointerOptions.empty
    [PEvent.pdown touch00, PEvent.pup touch00]
    (by simp [run, step, start, endPointer, flush, dispatch, mapSet, mapDelete,
      mapValues, getPointerMode, getEventType, initState, PointerOptions.empty,
      touch00, List.filter])

/-- C6 counterexample: a Draw gesture is started with a primary mouse
contact and a qualifying move (tracking becomes true); a second touch
contact then lands 200px away, the registry is reclassified to no mode, and
tracking remains true — refuting the claim that tracking is never true
while Mode is undefined. -/
theorem c6_counterexample :
    (run (initState PointerOptions.empty)
      [PEvent.pdown mouseDown00, PEvent.pmove mouseMoveA rect0,
        PEvent.pdown touchFar]).1.tracking = true ∧
    (run (initState PointerOptions.empty)
      [PEvent.pdown mouseDown00, PEvent.pmove mouseMoveA rect0,
        PEvent.pdown touchFar]).1.activeMode = none := by
  norm_num [run, step, start, move, moveBegin, moveDerive, isAcceptable, initState,
    PointerOptions.empty, mouseDown00, mouseMoveA, touchFar, touch00, rect0, mapSet,
    mapValues, getPointerMode, getPointerDistanceSq, inDragBand, dispatch,
    getEventType, snapOrigin, rabs, Mouse.Middle, Mouse.Left]

/-- C6 (amended): the invariant that tracking implies a defined Mode is
preserved by every handler except pointer-down: tracking is switched on
only when the classification is acceptable (hence defined), and every path
that clears the mode other than pointer-down also clears tracking. A
pointer-down arriving mid-gesture can reclassify Mode to undefined while
tracking stays true. -/
theorem c6_tracking_mode_amended (s : PState) (e : PEvent)
    (hinv : s.tracking = true → s.activeMode ≠ none) (hnd : e.isDown = false) :
    (step s e).1.tracking = true → (step s e).1.activeMode ≠ none :=
  step_tracking_mode s e hinv hnd

/-- C6 witness: the amended preservation applied at a concrete tracking
Draw state and a Space keyup. -/
theorem c6_tracking_mode_amended_witness :
    (step sDrawLock (PEvent.keyup keySpace)).1.tracking = true ∧
    (step sDrawLock (PEvent.keyup keySpace)).1.activeMode ≠ none :=
  ⟨by decide,
    c6_tracking_mode_amended sDrawLock (PEvent.keyup keySpace) (by decide) (by decide)
      (by decide)⟩

/-- C2: divergence witness. In the gesture pointer-down at (0, 0), first
qualifying move to (5, 0), the pointer-leave handler dispatches Cancel but
performs no reset: tracking stays true, the start geometry (startX = 5),
the mode and the contact registry all survive into the next event. The
Escape path in the same gesture dispatches Cancel and then does perform the
full reset, which is what the claim (and the debug message of the source,
`Pointer tracking canceled.`) describes. -/
theorem c2_leave_cancel_no_reset :
    ((run (initState PointerOptions.empty)
      [PEvent.pdown mouseDown00, PEvent.pmove mouseMoveA rect0,
        PEvent.pleave mouseMoveA]).2.map DEvent.type) =
      [PointerChangeType.Down, PointerChangeType.DrawStart, PointerChangeType.Move,
        PointerChangeType.Cancel] ∧
    (run (initState PointerOptions.empty)
      [PEvent.pdown mouseDown00, PEvent.pmove mouseMoveA rect0,
        PEvent.pleave mouseMoveA]).1.tracking = true ∧
    (run (initState PointerOptions.empty)
      [PEvent.pdown mouseDown00, PEvent.pmove mouseMoveA rect0,
        PEvent.pleave mouseMoveA]).1.startX = 5 ∧
    (run (initState PointerOptions.empty)
      [PEvent.pdown mouseDown00, PEvent.pmove mouseMoveA rect0,
        PEvent.pleave mouseMoveA]).1.activeMode = some PointerMode.Draw ∧
    (run (initState PointerOptions.empty)
      [PEvent.pdown mouseDown00, PEvent.pmove mouseMoveA rect0,
        PEvent.pleave mouseMoveA]).1.pointers.length = 1 ∧
    ((run (initState PointerOptions.empty)
      [PEvent.pdown mouseDown00, PEvent.pmove mouseMoveA rect0,
        PEvent.keydown keyEscape]).2.map DEvent.type) =
      [PointerChangeType.Down, PointerChangeType.DrawStart, PointerChangeType.Move,
        PointerChangeType.Cancel] ∧
    (run (initState PointerOptions.empty)
      [PEvent.pdown mouseDown00, PEvent.pmove mouseMoveA rect0,
        PEvent.keydown keyEscape]).1.tracking = false ∧
    (run (initState PointerOptions.empty)
      [PEvent.pdown mouseDown00, PEvent.pmove mouseMoveA rect0,
        PEvent.keydown keyEscape]).1.startX = 0 ∧
    (run (initState PointerOptions.empty)
      [PEvent.pdown mouseDown00, PEvent.pmove mouseMoveA rect0,
        PEvent.keydown keyEscape]).1.activeMode = none ∧
    (run (initState PointerOptions.empty)
      [PEvent.pdown mouseDown00, PEvent.pmove mouseMoveA rect0,
        PEvent.keydown keyEscape]).1.pointers = [] := by
  have hk : (KeyName.escape = KeyName.space) = False := by simp
  norm_num [run, step, start, move, moveBegin, moveDerive, isAcceptable, leave,
    keydown, flush, initState, PointerOptions.empty, mouseDown00, mouseMoveA,
    keyEscape, rect0, mapSet, mapValues, getPointerMode, getPointerDistanceSq,
    inDragBand, dispatch, getEventType, snapOrigin, rabs, Mouse.Middle, Mouse.Left, hk]

/-- A callback already present is in the registry after another add. -/
theorem mem_subAdd (subs : List Nat) (cb : Nat) : cb ∈ subAdd subs cb := by
  unfold subAdd
  split_ifs with h
  · exact h
  · simp

/-- Deleting a callback twice is the same as deleting it once. -/
theorem subDelete_idem (l : List Nat) (cb : Nat) :
    subDelete (subDelete l cb) cb = subDelete l cb := by
  unfold subDelete
  induction l with
  | nil => rfl
  | cons a l ih =>
    by_cases h : a = cb
    · simp [List.filter_cons, h, ih]
    · simp [List.filter_cons, h, ih]

/-- C8 counterexample: callback 7 is subscribed twice on an empty registry;
after invoking the unsubscribe returned by the first call, the callback is
no longer in the subscriber set, so it is NOT invoked on subsequent
dispatches — refuting the claimed independence of the two subscriptions. -/
theorem c8_counterexample :
    7 ∉ (subscribe [] 7).2 ((subscribe ((subscribe [] 7).1) 7).1) := by
  decide

/-- C8 (amended): calling subscribe twice with the same callback results in
a single registration (the second call leaves the set unchanged); invoking
the unsubscribe returned by either call removes the callback entirely, and
invoking the other unsubscribe afterwards is a no-op. -/
theorem c8_same_callback_shared (subs : List Nat) (cb : Nat) :
    (subscribe ((subscribe subs cb).1) cb).1 = (subscribe subs cb).1 ∧
    cb ∉ (subscribe subs cb).2 ((subscribe ((subscribe subs cb).1) cb).1) ∧
    (subscribe ((subscribe subs cb).1) cb).2
        ((subscribe subs cb).2 ((subscribe ((subscribe subs cb).1) cb).1)) =
      (subscribe subs cb).2 ((subscribe ((subscribe subs cb).1) cb).1) := by
  refine ⟨?_, ?_, ?_⟩
  · show subAdd (subAdd subs cb) cb = subAdd subs cb
    unfold subAdd
    split_ifs with h1 h2 <;> simp_all
  · show cb ∉ subDelete (subAdd (subAdd subs cb) cb) cb
    simp [subDelete, List.mem_filter]
  · show subDelete (subDelete (subAdd (subAdd subs cb) cb) cb) cb =
      subDelete (subAdd (subAdd subs cb) cb) cb
    exact subDelete_idem _ cb

/-- Dispatch is independent of the `touchOnly` / `mouseOnly` options. -/
theorem dispatch_set_tm (t : PointerChangeType) (s : PState) (a b : Bool) :
    dispatch t { s with touchOnly := a, mouseOnly := b } = dispatch t s := rfl

/-- The start handler commutes with overriding `touchOnly` / `mouseOnly`. -/
theorem start_set_tm (s : PState) (e : PContact) (a b : Bool) :
    start { s with touchOnly := a, mouseOnly := b } e =
      ({ (start s e).1 with touchOnly := a, mouseOnly := b }, (start s e).2) := by
  dsimp only [start, dispatch]
  split_ifs <;> rfl

/-- The tracking-start block commutes with overriding `touchOnly` /
`mouseOnly`. -/
theorem moveBegin_set_tm (s : PState) (e : PContact) (a b : Bool) :
    moveBegin { s with touchOnly := a, mouseOnly := b } e =
      ({ (moveBegin s e).1 with touchOnly := a, mouseOnly := b }, (moveBegin s e).2) := by
  dsimp only [moveBegin, isAcceptable, dispatch, getEventType]
  split_ifs <;> rfl

/-- The delta-derivation block commutes with overriding `touchOnly` /
`mouseOnly`. -/
theorem moveDerive_set_tm (s : PState) (e : PContact) (a b : Bool) :
    moveDerive { s with touchOnly := a, mouseOnly := b } e =
      { (moveDerive s e) with touchOnly := a, mouseOnly := b } := by
  dsimp only [moveDerive]
  split_ifs <;> rfl

/-- The move handler commutes with overriding `touchOnly` / `mouseOnly`. -/
theorem move_set_tm (s : PState) (e : PContact) (rect : Rect) (a b : Bool) :
    move { s with touchOnly := a, mouseOnly := b } e rect =
      ({ (move s e rect).1 with touchOnly := a, mouseOnly := b }, (move s e rect).2) := by
  dsimp only [move]
  generalize (e.clientX - rect.left * (if s.scaleClients then s.deltaZoom else 1)) / s.deltaScale = cx
  generalize (e.clientY - rect.top * (if s.scaleClients then s.deltaZoom else 1)) / s.deltaScale = cy
  split_ifs with h1 h2
  · rfl
  · rfl
  · have hb := moveBegin_set_tm { s with clientX := cx, clientY := cy, offsetX := cx / rect.width * 100, offsetY := cy / rect.height * 100 } e a b
    dsimp only at hb ⊢
    rw [hb]
    have hd := moveDerive_set_tm ((moveBegin { s with clientX := cx, clientY := cy, offsetX := cx / rect.width * 100, offsetY := cy / rect.height * 100 } e).1) e a b
    dsimp only at hd
    rw [hd]
    rw [dispatch_set_tm]

/-- The end handler commutes with overriding `touchOnly` / `mouseOnly`. -/
theorem endPointer_set_tm (s : PState) (e : PContact) (a b : Bool) :
    endPointer { s with touchOnly := a, mouseOnly := b } e =
      ({ (endPointer s e).1 with touchOnly := a, mouseOnly := b },
        (endPointer s e).2) := by
  dsimp only [endPointer, flush, dispatch]
  split_ifs <;> rfl

/-- The leave handler commutes with overriding `touchOnly` / `mouseOnly`. -/
theorem leave_set_tm (s : PState) (e : PContact) (a b : Bool) :
    leave { s with touchOnly := a, mouseOnly := b } e =
      ({ (leave s e).1 with touchOnly := a, mouseOnly := b }, (leave s e).2) := by
  dsimp only [leave, dispatch]
  split_ifs <;> rfl

/-- The keydown handler commutes with overriding `touchOnly` / `mouseOnly`. -/
theorem keydown_set_tm (s : PState) (e : KeyEvt) (a b : Bool) :
    keydown { s with touchOnly := a, mouseOnly := b } e =
      ({ (keydown s e).1 with touchOnly := a, mouseOnly := b }, (keydown s e).2) := by
  dsimp only [keydown, flush, dispatch]
  split_ifs <;> rfl

/-- The keyup handler commutes with overriding `touchOnly` / `mouseOnly`. -/
theorem keyup_set_tm (s : PState) (e : KeyEvt) (a b : Bool) :
    keyup { s with touchOnly := a, mouseOnly := b } e =
      ({ (keyup s e).1 with touchOnly := a, mouseOnly := b }, (keyup s e).2) := by
  dsimp only [keyup]
  split_ifs <;> rfl

/-- One step commutes with overriding `touchOnly` / `mouseOnly`: no handler
reads either option. -/
theorem step_set_tm (s : PState) (e : PEvent) (a b : Bool) :
    step { s with touchOnly := a, mouseOnly := b } e =
      ({ (step s e).1 with touchOnly := a, mouseOnly := b }, (step s e).2) := by
  cases e with
  | pdown c => exact start_set_tm s c a b
  | pmove c rect => exact move_set_tm s c rect a b
  | pup c => exact endPointer_set_tm s c a b
  | pleave c => exact leave_set_tm s c a b
  | keydown k => exact keydown_set_tm s k a b
  | keyup k => exact keyup_set_tm s k a b

/-- A whole run commutes with overriding `touchOnly` / `mouseOnly`; in
particular the dispatched event stream is identical. -/
theorem run_set_tm (evs : List PEvent) (s : PState) (a b : Bool) :
    run { s with touchOnly := a, mouseOnly := b } evs =
      ({ (run s evs).1 with touchOnly := a, mouseOnly := b }, (run s evs).2) := by
  induction evs generalizing s with
  | nil => rfl
  | cons e rest ih =>
    simp only [run]
    rw [step_set_tm]
    dsimp only
    rw [ih]

/-- C10: the `touchOnly` and `mouseOnly` options have no effect on
behaviour — two trackers started from options differing only in those two
fields dispatch identical event streams (kinds and full payloads) on every
input event sequence. -/
theorem c10_touch_mouse_only_noop (o : PointerOptions) (a b : Option Bool)
    (evs : List PEvent) :
    (run (initState { o with touchOnly := a, mouseOnly := b }) evs).2 =
      (run (initState o) evs).2 := by
  have h : initState { o with touchOnly := a, mouseOnly := b } =
      { initState o with touchOnly := a.getD false, mouseOnly := b.getD false } := rfl
  rw [h, run_set_tm]
